import Mathlib

/-!
Verification of the MAhub answer-engine core against its specification.

The definitions below are a shallow embedding of the JavaScript source:

* `src/api/chat.js` — `generateSmartAnswer` (deterministic fallback),
  `buildFocusedContext` / `buildContext` (context assembly), and the
  completion-service dispatch logic of the request handler;
* `src/api/airtable-data.js` — `normalizeTableName` and the fuzzy
  table-name scan.

JavaScript strings are modelled by Lean `String` (lowercasing and
whitespace classification follow Lean's ASCII versions), numeric scores
by exact rationals `ℚ` (the scores are ratios of small list lengths; the
degenerate JavaScript value `0/0 = NaN` fails every strict comparison,
exactly as the rational `0/0 = 0` does in the guards below, so the two
models are observationally identical), and a thrown `TypeError` by the
`JsResult.thrown` constructor.
-/

/-- Outcome of a JavaScript computation that can throw: either a value or
a thrown error. -/
inductive JsResult (α : Type) where
  | ok (val : α) : JsResult α
  | thrown : JsResult α
deriving DecidableEq

/-- Character-list test: `listStartsWith l pat` is true when `pat` is an
initial segment of `l`. -/
def listStartsWith : List Char → List Char → Bool
  | _, [] => true
  | [], _ :: _ => false
  | a :: as, b :: bs => a == b && listStartsWith as bs

/-- Character-list test: `listHasSub l pat` is true when `pat` occurs
contiguously inside `l`. -/
def listHasSub : List Char → List Char → Bool
  | [], pat => pat.isEmpty
  | a :: as, pat => listStartsWith (a :: as) pat || listHasSub as pat

/-- JavaScript `s.includes(pat)`: substring containment. -/
def containsSubstr (s pat : String) : Bool :=
  listHasSub s.toList pat.toList

/-- JavaScript `s.toLowerCase()`, modelled character by character. -/
def jsLower (s : String) : String :=
  String.mk (s.toList.map Char.toLower)

/-- Accumulator for whitespace splitting: `acc` holds the current word
reversed. -/
def splitWordsAux : List Char → List Char → List String
  | [], acc => if acc.isEmpty then [] else [String.mk acc.reverse]
  | c :: cs, acc =>
    if c.isWhitespace then
      if acc.isEmpty then splitWordsAux cs []
      else String.mk acc.reverse :: splitWordsAux cs []
    else splitWordsAux cs (c :: acc)

/-- Split a character list into its maximal whitespace-free words.  This
agrees with JavaScript `split(/\s+/)` up to empty tokens, which every
consumer below filters away. -/
def splitWords (cs : List Char) : List String :=
  splitWordsAux cs []

/-- `q.split(/\s+/).filter(w => w.length > 3)` from chat.js line 117:
the significant tokens of an (already lowercased) question. -/
def sigTokens (ql : String) : List String :=
  (splitWords ql.toList).filter (fun w => w.length > 3)

/-- One FAQ entry of the knowledge document. -/
structure FAQ where
  question : String
  answer : String
deriving DecidableEq

/-- A tier of a predictive model. -/
structure Tier where
  tier : String
  label : Option String
  action : String
deriving DecidableEq

/-- A predictive model of the knowledge document. -/
structure PredictiveModel where
  name : String
  description : String
  scale : Option String
  tiers : List Tier
deriving DecidableEq

/-- A tool entry; the optional fields are absent (`none`) when the JSON
document omits them. -/
structure Tool where
  name : String
  description : String
  capabilities : Option (List String)
  channels : Option (List String)
  integrations : Option (List String)
deriving DecidableEq

/-- A tool category of the knowledge document. -/
structure Category where
  name : String
  description : String
  tools : List Tool
deriving DecidableEq

/-- A data flow of the knowledge document. -/
structure DataFlow where
  name : String
  source : String
  destination : String
  description : String
  dataType : String
deriving DecidableEq

/-- A measurement approach. -/
structure Approach where
  name : String
  purpose : String
  description : String
deriving DecidableEq

/-- The measurement framework section. -/
structure MeasurementFramework where
  description : String
  approaches : List Approach
deriving DecidableEq

/-- A compliance high-risk area. -/
structure HighRiskArea where
  area : String
  requirements : List String
deriving DecidableEq

/-- The compliance section. -/
structure ComplianceInfo where
  regulations : List String
  principle : String
  highRiskAreas : List HighRiskArea
deriving DecidableEq

/-- The data-strategy section (only `predictiveModels` is consumed). -/
structure DataStrategy where
  predictiveModels : List PredictiveModel
deriving DecidableEq

/-- The strategy-goals section (optional in the document). -/
structure StrategyGoals where
  goals : List String
  objectives : List String
deriving DecidableEq

/-- One strategic pillar (the section is optional in the document). -/
structure Pillar where
  name : String
  description : String
  initiatives : List String
deriving DecidableEq

/-- The knowledge document, as read from `data/knowledge-base.json`.
Fields that `chat.js` dereferences without a truthiness guard are
required; those it guards are `Option`. -/
structure KB where
  company : String
  lastUpdated : String
  strategyGoals : Option StrategyGoals
  strategicPillars : Option (List Pillar)
  categories : List Category
  dataStrategy : DataStrategy
  dataFlows : List DataFlow
  measurementFramework : MeasurementFramework
  compliance : ComplianceInfo
  faqs : List FAQ
deriving DecidableEq

/-- chat.js line 118: the number of significant tokens of the lowercased
question `ql` occurring as substrings of the FAQ's lowercased question. -/
def matchCount (ql : String) (faq : FAQ) : Nat :=
  ((sigTokens ql).filter (fun w => containsSubstr (jsLower faq.question) w)).length

/-- chat.js line 119: `score = matches / words.length`.  With zero
significant tokens JavaScript yields `NaN`, which fails the strict
comparisons of the update guard just as the rational `0 / 0 = 0` does. -/
def faqScore (ql : String) (faq : FAQ) : ℚ :=
  (matchCount ql faq : ℚ) / ((sigTokens ql).length : ℚ)

/-- chat.js lines 115-125: the best-FAQ loop, with accumulator
`(bestFaq, bestScore)` and update guard `score > bestScore && score > 0.3`. -/
def bestFaqAux (ql : String) : List FAQ → Option FAQ × ℚ → Option FAQ × ℚ
  | [], acc => acc
  | faq :: rest, (bestFaq, bestScore) =>
    let score := faqScore ql faq
    if score > bestScore ∧ score > (3 : ℚ)/10 then
      bestFaqAux ql rest (some faq, score)
    else
      bestFaqAux ql rest (bestFaq, bestScore)

/-- The FAQ-matching operation of `generateSmartAnswer`: runs the loop
from the initial accumulator `(null, 0)`. -/
def findBestFaq (ql : String) (faqs : List FAQ) : Option FAQ × ℚ :=
  bestFaqAux ql faqs (none, 0)

/-- chat.js lines 128 and 190: markdown rendering of an FAQ answer. -/
def renderFaq (f : FAQ) : String :=
  "**" ++ f.question ++ "**\n\n" ++ f.answer

/-- JavaScript truthiness of an optional string (used for `t.label ? ...`
style ternaries: `undefined` and the empty string are falsy). -/
def optStrTruthy (o : Option String) : Bool :=
  match o with
  | some s => !(s == "")
  | none => false

/-- chat.js line 137: one tier line of the lead-scoring template. -/
def leadTierLine (t : Tier) : String :=
  "• **" ++ t.tier ++ "**" ++
    (match t.label with
     | some l => if l == "" then "" else " (" ++ l ++ ")"
     | none => "") ++ ": " ++ t.action ++ "\n"

/-- chat.js lines 135-140: the lead-scoring answer template. -/
def renderLeadScore (m : PredictiveModel) : String :=
  "**" ++ m.name ++ "**\n\n" ++ m.description ++ "\n\n**Score Tiers:**\n" ++
    String.join (m.tiers.map leadTierLine) ++
    "\nThe score is computed in Segment and synced to Braze for targeting."

/-- chat.js lines 132-142: the `lead scor` topic branch; `none` means the
branch falls through. -/
def leadScoreBranch (q : String) (kb : KB) : Option String :=
  if containsSubstr q "lead scor" then
    (kb.dataStrategy.predictiveModels.find?
      (fun m => containsSubstr m.name "Lead Score")).map renderLeadScore
  else none

/-- chat.js lines 147-151: the churn answer template.  The template
literal `(Scale: undefined)` is what JavaScript prints for an absent
scale. -/
def renderChurn (m : PredictiveModel) : String :=
  "**" ++ m.name ++ "**\n\n" ++ m.description ++ " (Scale: " ++
    (match m.scale with | some s => s | none => "undefined") ++
    ")\n\n**Tiers:**\n" ++
    String.join (m.tiers.map (fun t => "• **" ++ t.tier ++ "**: " ++ t.action ++ "\n"))

/-- chat.js lines 144-153: the churn topic branch. -/
def churnBranch (q : String) (kb : KB) : Option String :=
  if containsSubstr q "churn" || containsSubstr q "predictive churn" then
    (kb.dataStrategy.predictiveModels.find?
      (fun m => containsSubstr m.name "Churn")).map renderChurn
  else none

/-- chat.js line 158: the Braze channels answer template. -/
def renderChannels (chs caps : List String) : String :=
  "**Braze Supported Channels:**\n\n" ++
    String.intercalate "\n" (chs.map (fun c => "• " ++ c)) ++
    "\n\n**Additional Capabilities:**\n" ++
    String.intercalate "\n" ((caps.take 6).map (fun c => "• " ++ c))

/-- chat.js lines 155-160: the channels topic branch.  The source reads
`braze.capabilities.slice(0, 6)` without a guard, so a tool that lists
channels but no capabilities makes the branch throw a `TypeError`. -/
def channelsBranch (q : String) (kb : KB) : Option (JsResult String) :=
  if containsSubstr q "braze" && containsSubstr q "channel" then
    match (kb.categories.find? (fun c => c.name = "Customer Engagement")).bind
            (fun c => c.tools.find? (fun t => t.name = "Braze")) with
    | some braze =>
      match braze.channels with
      | some chs =>
        match braze.capabilities with
        | some caps => some (JsResult.ok (renderChannels chs caps))
        | none => some JsResult.thrown
      | none => none
    | none => none
  else none

/-- chat.js lines 163-168: the attribution answer template. -/
def renderAttribution (mf : MeasurementFramework) : String :=
  "**" ++ mf.description ++ "**\n\n" ++
    String.join (mf.approaches.map (fun a =>
      "**" ++ a.name ++ "** - " ++ a.purpose ++ "\n" ++ a.description ++ "\n\n"))

/-- chat.js lines 162-169: the attribution topic branch. -/
def attributionBranch (q : String) (kb : KB) : Option String :=
  if containsSubstr q "mta" || containsSubstr q "mmm" || containsSubstr q "attribution" then
    some (renderAttribution kb.measurementFramework)
  else none

/-- chat.js lines 173-177: the compliance answer template. -/
def renderCompliance (c : ComplianceInfo) : String :=
  "**Compliance & Privacy**\n\nRegulations: " ++
    String.intercalate ", " c.regulations ++ "\n\n_\"" ++ c.principle ++ "\"_\n\n" ++
    String.join (c.highRiskAreas.map (fun area =>
      "**" ++ area.area ++ ":**\n" ++
        String.intercalate "\n" (area.requirements.map (fun r => "• " ++ r)) ++ "\n\n"))

/-- chat.js lines 171-178: the compliance topic branch.  Note the trigger
list is `gdpr`, `compliance`, `privacy` only — `consent` is absent. -/
def complianceBranch (q : String) (kb : KB) : Option String :=
  if containsSubstr q "gdpr" || containsSubstr q "compliance" || containsSubstr q "privacy" then
    some (renderCompliance kb.compliance)
  else none

/-- chat.js lines 181-185: the data-flows answer template. -/
def renderDataFlows (kb : KB) : String :=
  "**Data Collection & Flows**\n\nUser data is collected via Segment SDK in the web/app.\n\n**Key Data Flows:**\n" ++
    String.join (kb.dataFlows.map (fun f =>
      "• **" ++ f.name ++ "**: " ++ f.source ++ " → " ++ f.destination ++
        "\n  _" ++ f.dataType ++ "_\n"))

/-- chat.js lines 180-186: the data-flows topic branch. -/
def dataFlowBranch (q : String) (kb : KB) : Option String :=
  if containsSubstr q "data" && (containsSubstr q "collect" || containsSubstr q "flow") then
    some (renderDataFlows kb)
  else none

/-- chat.js line 195: the Braze example-questions menu. -/
def brazeMenu : String :=
  "**I can help with Braze!** Try asking:\n\n• \"List all campaigns\" - See your active campaigns\n• \"Show Braze campaigns\" - View campaign list\n• \"How many campaigns do we have?\" - Get campaign count\n• \"What campaigns are running?\" - See active campaigns\n• \"What channels does Braze support?\" - Learn about Braze capabilities\n• \"How do I send a push notification?\" - Step-by-step guide\n• \"What is a Canvas in Braze?\" - Learn about journey orchestration\n\n_Note: Live campaign data requires Braze to be connected in the Admin panel._"

/-- chat.js line 199: the generic default menu. -/
def defaultMenu : String :=
  "I can help you with questions about:\n\n• **Tools**: Braze, Segment, Amplitude, AppsFlyer, Mixpanel\n• **Data**: Lead scoring, LTV prediction, churn models\n• **Campaigns**: How to send push/email/SMS via Braze\n• **Attribution**: MTA vs MMM, measurement frameworks\n• **Compliance**: GDPR, consent management\n\nTry asking a specific question like \"How does lead scoring work?\" or \"What channels does Braze support?\""

/-- chat.js lines 131-199: everything of `generateSmartAnswer` after the
confident-FAQ gate, in source order: topic branches, best-effort FAQ,
Braze menu, generic menu. -/
def smartAnswerCore (q : String) (kb : KB) (bestFaq : Option FAQ) : JsResult String :=
  match leadScoreBranch q kb with
  | some a => JsResult.ok a
  | none =>
    match churnBranch q kb with
    | some a => JsResult.ok a
    | none =>
      match channelsBranch q kb with
      | some r => r
      | none =>
        match attributionBranch q kb with
        | some a => JsResult.ok a
        | none =>
          match complianceBranch q kb with
          | some a => JsResult.ok a
          | none =>
            match dataFlowBranch q kb with
            | some a => JsResult.ok a
            | none =>
              match bestFaq with
              | some f => JsResult.ok (renderFaq f)
              | none =>
                if containsSubstr q "braze" || containsSubstr q "campaign" || containsSubstr q "canvas" then
                  JsResult.ok brazeMenu
                else JsResult.ok defaultMenu

/-- chat.js lines 108-200: the deterministic fallback renderer
`generateSmartAnswer(question, kb)`. -/
def generateSmartAnswer (question : String) (kb : KB) : JsResult String :=
  let q := jsLower question
  match findBestFaq q kb.faqs with
  | (some f, bestScore) =>
    if bestScore > (1 : ℚ)/2 then JsResult.ok (renderFaq f)
    else smartAnswerCore q kb (some f)
  | (none, _) => smartAnswerCore q kb none

/-- chat.js lines 208-211: FAQs whose question or answer contains some
significant token, capped at three. -/
def relevantFaqs (q : String) (kb : KB) : List FAQ :=
  (kb.faqs.filter (fun faq =>
    (sigTokens q).any (fun w =>
      containsSubstr (jsLower faq.question) w || containsSubstr (jsLower faq.answer) w))).take 3

/-- chat.js lines 213-218: the relevant-FAQs context section. -/
def faqSection (q : String) (kb : KB) : String :=
  if (relevantFaqs q kb).length > 0 then
    "Relevant FAQs:\n" ++
      String.join ((relevantFaqs q kb).map (fun faq =>
        "Q: " ++ faq.question ++ "\nA: " ++ faq.answer ++ "\n\n"))
  else ""

/-- chat.js lines 223-230: context rendering of one predictive model.
`tiers` is a required field of the document, so the source's truthiness
guard on it is vacuous. -/
def predictiveModelCtx (m : PredictiveModel) : String :=
  m.name ++ ": " ++ m.description ++
    (match m.scale with
     | some s => if s == "" then "" else " (" ++ s ++ ")"
     | none => "") ++ "\n" ++
    String.join (m.tiers.map (fun t =>
      "  - " ++ t.tier ++
        (match t.label with
         | some l => if l == "" then "" else " [" ++ l ++ "]"
         | none => "") ++ ": " ++ t.action ++ "\n"))

/-- chat.js lines 221-232: the predictive-models context section. -/
def predictiveSection (q : String) (kb : KB) : String :=
  if containsSubstr q "lead" || containsSubstr q "score" || containsSubstr q "churn" ||
      containsSubstr q "ltv" || containsSubstr q "predictive" then
    "Predictive Models:\n" ++
      String.join (kb.dataStrategy.predictiveModels.map predictiveModelCtx) ++ "\n"
  else ""

/-- chat.js line 235: the tool keyword list. -/
def toolKeywords : List String :=
  ["braze", "segment", "amplitude", "mixpanel", "appsflyer", "push", "email", "sms", "channel"]

/-- chat.js line 240: a tool is rendered when its name contains a tool
keyword or the question mentions the tool's lowercased name. -/
def toolMentioned (q : String) (t : Tool) : Bool :=
  toolKeywords.any (fun k =>
    containsSubstr (jsLower t.name) k || containsSubstr q (jsLower t.name))

/-- chat.js lines 241-243: context rendering of one tool. -/
def toolCtx (t : Tool) : String :=
  t.name ++ ": " ++ t.description ++ "\n" ++
    (match t.capabilities with
     | some caps => "Capabilities: " ++ String.intercalate ", " caps ++ "\n"
     | none => "") ++
    (match t.channels with
     | some chs => "Channels: " ++ String.intercalate ", " chs ++ "\n"
     | none => "")

/-- chat.js lines 235-248: the tools context section. -/
def toolsSection (q : String) (kb : KB) : String :=
  if toolKeywords.any (fun k => containsSubstr q k) then
    "Tools:\n" ++
      String.join (kb.categories.map (fun cat =>
        String.join ((cat.tools.filter (toolMentioned q)).map toolCtx))) ++ "\n"
  else ""

/-- chat.js lines 251-257: the measurement context section. -/
def measurementSection (q : String) (kb : KB) : String :=
  if containsSubstr q "mta" || containsSubstr q "mmm" || containsSubstr q "attribution" ||
      containsSubstr q "measurement" then
    "Measurement Framework: " ++ kb.measurementFramework.description ++ "\n" ++
      String.join (kb.measurementFramework.approaches.map (fun a =>
        a.name ++ " (" ++ a.purpose ++ "): " ++ a.description ++ "\n")) ++ "\n"
  else ""

/-- chat.js lines 261-266: the text of the compliance context section. -/
def complianceText (kb : KB) : String :=
  "Compliance: Regulations: " ++ String.intercalate ", " kb.compliance.regulations ++ "\n" ++
    "Principle: " ++ kb.compliance.principle ++ "\n" ++
    String.join (kb.compliance.highRiskAreas.map (fun a =>
      a.area ++ ": " ++ String.intercalate "; " a.requirements ++ "\n")) ++ "\n"

/-- chat.js lines 260-267: the compliance context section.  Here, unlike
the fallback renderer, `consent` is among the triggers. -/
def complianceSection (q : String) (kb : KB) : String :=
  if containsSubstr q "gdpr" || containsSubstr q "compliance" || containsSubstr q "privacy" ||
      containsSubstr q "consent" then
    complianceText kb
  else ""

/-- chat.js lines 270-276: the data-flows context section. -/
def dataFlowsSection (q : String) (kb : KB) : String :=
  if containsSubstr q "data" || containsSubstr q "flow" || containsSubstr q "collect" ||
      containsSubstr q "segment" then
    "Data Flows:\n" ++
      String.join (kb.dataFlows.map (fun f =>
        f.name ++ ": " ++ f.source ++ " -> " ++ f.destination ++ " (" ++ f.dataType ++ ")\n")) ++ "\n"
  else ""

/-- chat.js lines 205-276: the `context` accumulator of
`buildFocusedContext` before the empty-context fallback. -/
def focusedBody (q : String) (kb : KB) : String :=
  faqSection q kb ++ predictiveSection q kb ++ toolsSection q kb ++
    measurementSection q kb ++ complianceSection q kb ++ dataFlowsSection q kb

/-- chat.js lines 285-286: the company header of the full-document
rendering. -/
def fullHeader (kb : KB) : String :=
  "Company: " ++ kb.company ++ "\n" ++ "Last Updated: " ++ kb.lastUpdated ++ "\n\n"

/-- chat.js lines 289-292: strategy goals (optional section). -/
def fullStrategyGoals (kb : KB) : String :=
  match kb.strategyGoals with
  | some sg =>
    "Strategy Goals: " ++ String.intercalate ", " sg.goals ++ "\n" ++
      "Objectives: " ++ String.intercalate ", " sg.objectives ++ "\n\n"
  | none => ""

/-- chat.js lines 295-302: strategic pillars (optional section). -/
def fullPillars (kb : KB) : String :=
  match kb.strategicPillars with
  | some ps =>
    "Strategic Pillars:\n" ++
      String.join (ps.map (fun p =>
        "- " ++ p.name ++ ": " ++ p.description ++ "\n" ++
          "  Initiatives: " ++ String.intercalate "; " p.initiatives ++ "\n")) ++ "\n"
  | none => ""

/-- chat.js lines 310-319: full rendering of one tool. -/
def fullToolCtx (t : Tool) : String :=
  "- " ++ t.name ++ ": " ++ t.description ++ "\n" ++
    (match t.capabilities with
     | some caps => "  Capabilities: " ++ String.intercalate ", " caps ++ "\n"
     | none => "") ++
    (match t.channels with
     | some chs => "  Channels: " ++ String.intercalate ", " chs ++ "\n"
     | none => "") ++
    (match t.integrations with
     | some ints => "  Integrations: " ++ String.intercalate ", " ints ++ "\n"
     | none => "")

/-- chat.js lines 305-323: tools by category (`categories` is a required
field, so the source's truthiness guard is vacuous). -/
def fullCategories (kb : KB) : String :=
  "Tools and Categories:\n" ++
    String.join (kb.categories.map (fun cat =>
      "\n" ++ cat.name ++ ": " ++ cat.description ++ "\n" ++
        String.join (cat.tools.map fullToolCtx))) ++ "\n"

/-- chat.js lines 326-340: predictive models of the full rendering. -/
def fullModels (kb : KB) : String :=
  "Predictive Models:\n" ++
    String.join (kb.dataStrategy.predictiveModels.map (fun m =>
      "- " ++ m.name ++ ": " ++ m.description ++
        (match m.scale with
         | some s => if s == "" then "" else " (Scale: " ++ s ++ ")"
         | none => "") ++ "\n" ++
        String.join (m.tiers.map (fun t =>
          "  " ++ t.tier ++
            (match t.label with
             | some l => if l == "" then "" else " [" ++ l ++ "]"
             | none => "") ++ ": " ++ t.action ++ "\n")))) ++ "\n"

/-- chat.js lines 343-351: data flows of the full rendering. -/
def fullFlows (kb : KB) : String :=
  "Data Flows:\n" ++
    String.join (kb.dataFlows.map (fun f =>
      "- " ++ f.name ++ ": " ++ f.source ++ " -> " ++ f.destination ++ "\n" ++
        "  " ++ f.description ++ "\n" ++ "  Data Type: " ++ f.dataType ++ "\n")) ++ "\n"

/-- chat.js lines 354-360: measurement framework of the full rendering. -/
def fullMeasurement (kb : KB) : String :=
  "Measurement Framework: " ++ kb.measurementFramework.description ++ "\n" ++
    String.join (kb.measurementFramework.approaches.map (fun a =>
      "- " ++ a.name ++ " (" ++ a.purpose ++ "): " ++ a.description ++ "\n")) ++ "\n"

/-- chat.js lines 363-370: compliance of the full rendering. -/
def fullCompliance (kb : KB) : String :=
  "Compliance Regulations: " ++ String.intercalate ", " kb.compliance.regulations ++ "\n" ++
    "Principle: " ++ kb.compliance.principle ++ "\n" ++
    String.join (kb.compliance.highRiskAreas.map (fun a =>
      "- " ++ a.area ++ ": " ++ String.intercalate "; " a.requirements ++ "\n")) ++ "\n"

/-- chat.js lines 373-379: FAQs of the full rendering. -/
def fullFaqs (kb : KB) : String :=
  "Frequently Asked Questions:\n" ++
    String.join (kb.faqs.map (fun f =>
      "Q: " ++ f.question ++ "\n" ++ "A: " ++ f.answer ++ "\n\n"))

/-- chat.js lines 281-382: `buildContext(kb)` — the unfiltered
full-document rendering. -/
def buildContext (kb : KB) : String :=
  fullHeader kb ++ fullStrategyGoals kb ++ fullPillars kb ++ fullCategories kb ++
    fullModels kb ++ fullFlows kb ++ fullMeasurement kb ++ fullCompliance kb ++ fullFaqs kb

/-- chat.js lines 203-279: `buildFocusedContext(question, kb)`; the final
line `return context || buildContext(kb)` swaps in the full rendering
when the focused context is empty. -/
def buildFocusedContext (question : String) (kb : KB) : String :=
  let q := jsLower question
  let context := focusedBody q kb
  if context = "" then buildContext kb else context

/-- Abstract outcome of the completion-service call in chat.js lines
50-88: the fetch (or JSON parsing) threw, the response was non-success
(`!response.ok`, which line 84 turns into a throw), or it succeeded with
the given `data.choices[0]?.message?.content`. -/
inductive ServiceOutcome where
  | threw : ServiceOutcome
  | notOk : ServiceOutcome
  | okContent (content : Option String) : ServiceOutcome
deriving DecidableEq

/-- chat.js line 88: the placeholder used when a successful response has
no usable content. -/
def placeholderText : String := "Sorry, I could not generate a response."

/-- chat.js lines 96-103: the catch block — answer by
`generateSmartAnswer` with model tag `fallback` (a throw inside
`generateSmartAnswer` itself would propagate out of the catch block). -/
def fallbackResponse (question : String) (kb : KB) : JsResult (String × String) :=
  match generateSmartAnswer question kb with
  | JsResult.ok a => JsResult.ok (a, "fallback")
  | JsResult.thrown => JsResult.thrown

/-- chat.js lines 45-104: what the handler sends back (answer and model
tag) in completion-service mode, as a function of the service outcome.
A throw and a non-success response are caught and answered by
`generateSmartAnswer` with tag `fallback`; a success with falsy content
(absent or empty string) is answered by the placeholder with tag
`gpt-4o-mini`. -/
def handleCompletionOutcome (question : String) (kb : KB) (o : ServiceOutcome) :
    JsResult (String × String) :=
  match o with
  | ServiceOutcome.threw => fallbackResponse question kb
  | ServiceOutcome.notOk => fallbackResponse question kb
  | ServiceOutcome.okContent content =>
    let answer :=
      match content with
      | some c => if c = "" then placeholderText else c
      | none => placeholderText
    JsResult.ok (answer, "gpt-4o-mini")

/-- Modelled from the spec: a live record (campaign) as described in
section 3 of the specification — the Live-Data Synthesizer itself is not
part of the repository snapshot, only its interface description.
Timestamps are modelled as naturals. -/
structure LiveRecord where
  name : String
  createdAt : Nat
  lastEdited : Option Nat
  isDraft : Bool
deriving DecidableEq

/-- Modelled from the spec: the recency key `lastEdited ?? createdAt`. -/
def recencyKey (r : LiveRecord) : Nat :=
  r.lastEdited.getD r.createdAt

/-- Insert a record into a list that is sorted by descending recency key. -/
def insertDesc (r : LiveRecord) : List LiveRecord → List LiveRecord
  | [] => [r]
  | x :: xs =>
    if recencyKey x ≤ recencyKey r then r :: x :: xs
    else x :: insertDesc r xs

/-- Modelled from the spec: "Records are first sorted descending by
`lastEdited ?? createdAt`" (insertion sort on the recency key). -/
def sortByRecency : List LiveRecord → List LiveRecord
  | [] => []
  | r :: rs => insertDesc r (sortByRecency rs)

/-- Modelled from the spec: the count sub-intent trigger
(`how many|count|total`). -/
def countIntent (q : String) : Bool :=
  containsSubstr q "how many" || containsSubstr q "count" || containsSubstr q "total"

/-- Modelled from the spec: the list/show sub-intent trigger
(`list|show|what|which`). -/
def listIntent (q : String) : Bool :=
  containsSubstr q "list" || containsSubstr q "show" || containsSubstr q "what" ||
    containsSubstr q "which"

/-- Modelled from the spec: the recency sub-intent trigger
(`recent|latest|last|new`). -/
def recencyIntent (q : String) : Bool :=
  containsSubstr q "recent" || containsSubstr q "latest" || containsSubstr q "last" ||
    containsSubstr q "new"

/-- Modelled from the spec: one numbered line per record — name, draft
annotation when applicable. -/
def renderRecords (rs : List LiveRecord) : String :=
  String.join (rs.enum.map (fun p =>
    toString (p.1 + 1) ++ ". " ++ p.2.name ++
      (if p.2.isDraft then " (Draft)" else "") ++ "\n"))

/-- Modelled from the spec: the heading of the recency template. -/
def recentHeading : String := "**Most recent campaigns:**\n"

/-- Modelled from the spec: the count template (total plus draft /
non-draft breakdown). -/
def renderCount (rs : List LiveRecord) : String :=
  let total := rs.length
  let drafts := (rs.filter (fun r => r.isDraft)).length
  "You have " ++ toString total ++ " campaigns: " ++
    toString (total - drafts) ++ " active, " ++ toString drafts ++ " drafts."

/-- Modelled from the spec (section 4.2): the Live-Data Synthesizer's
sub-intent dispatch, in the spec's order — count, list/show, recency.
`none` is the explicit fallthrough to the Knowledge Matcher; an empty
snapshot is treated as "no live data".  The name-search sub-intent,
which follows recency in the spec's precedence order and therefore
cannot influence the earlier branches, is folded into the fallthrough. -/
def synthesize (q : String) (records : List LiveRecord) : Option String :=
  if records.isEmpty then none
  else
    let sorted := sortByRecency records
    if countIntent q then some (renderCount records)
    else if listIntent q then
      some ("**Your campaigns:**\n" ++ renderRecords (sorted.take 10) ++
        (if records.length > 10 then "...and " ++ toString (records.length - 10) ++ " more" else ""))
    else if recencyIntent q then
      some (recentHeading ++ renderRecords (sorted.take 5))
    else none

/-- airtable-data.js line 27: the emoji range stripped by
`normalizeTableName` (`\u{1F300}`-`\u{1F9FF}`). -/
def isEmojiChar (c : Char) : Bool :=
  0x1F300 ≤ c.toNat && c.toNat ≤ 0x1F9FF

/-- JavaScript `\w` without the unicode flag: `[A-Za-z0-9_]`. -/
def isWordChar (c : Char) : Bool :=
  c.isAlphanum || c == '_'

/-- airtable-data.js lines 25-32: strip emojis, drop characters that are
neither word nor whitespace, collapse whitespace runs to single spaces,
trim, and lowercase.  Collapse-and-trim is rendered as joining the
whitespace-free words with single spaces. -/
def normalizeTableName (name : String) : String :=
  let cs := name.toList.filter (fun c => !(isEmojiChar c))
  let cs := cs.filter (fun c => isWordChar c || c.isWhitespace)
  let collapsed := String.intercalate " " (splitWords cs)
  String.mk (collapsed.toList.map Char.toLower)

/-- airtable-data.js lines 81-110: the fuzzy-match scan over the base's
table names with accumulator `(bestMatch, bestScore)`.  An exact
normalized match assigns `bestMatch` and breaks out of the loop
(returning without visiting the remaining tables); otherwise the
containment score and the word-overlap score may update the
accumulator. -/
def fuzzyScanAux (normalizedSearch : String) :
    List String → Option String × ℚ → Option String × ℚ
  | [], acc => acc
  | tname :: rest, (bestMatch, bestScore) =>
    let nt := normalizeTableName tname
    if nt = normalizedSearch then (some tname, bestScore)
    else
      let acc1 :=
        if containsSubstr nt normalizedSearch || containsSubstr normalizedSearch nt then
          let score : ℚ :=
            (min normalizedSearch.length nt.length : ℚ) /
              (max normalizedSearch.length nt.length : ℚ)
          if score > bestScore then (some tname, score) else (bestMatch, bestScore)
        else (bestMatch, bestScore)
      let searchWords := (splitWords normalizedSearch.toList).filter (fun w => w.length > 2)
      let tableWords := (splitWords nt.toList).filter (fun w => w.length > 2)
      let matchingWords := searchWords.filter (fun w =>
        tableWords.any (fun tw => containsSubstr tw w || containsSubstr w tw))
      let acc2 :=
        if matchingWords.length > 0 then
          let wordScore : ℚ := (matchingWords.length : ℚ) / (max searchWords.length 1 : ℚ)
          if wordScore > acc1.2 then (some tname, wordScore) else acc1
        else acc1
      fuzzyScanAux normalizedSearch rest acc2

/-- airtable-data.js lines 75-110: normalize the requested name once and
scan the table list from the accumulator `(null, 0)`. -/
def findFuzzyMatch (tableName : String) (tables : List String) : Option String × ℚ :=
  fuzzyScanAux (normalizeTableName tableName) tables (none, 0)

theorem strNeEmptyOfPos (s : String) (h : 0 < s.length) : s ≠ "" := by
  intro e
  rw [e] at h
  exact absurd h (by decide)

theorem faqScore_nonneg (ql : String) (f : FAQ) : 0 ≤ faqScore ql f := by
  unfold faqScore
  positivity

theorem matchCount_le (ql : String) (f : FAQ) : matchCount ql f ≤ (sigTokens ql).length :=
  List.length_filter_le _ _

theorem faqScore_le_one (ql : String) (f : FAQ) : faqScore ql f ≤ 1 := by
  unfold faqScore
  rcases Nat.eq_zero_or_pos (sigTokens ql).length with h | h
  · have hm : matchCount ql f = 0 := by
      have := matchCount_le ql f
      omega
    rw [hm, h]
    norm_num
  · rw [div_le_one (by exact_mod_cast h)]
    exact_mod_cast matchCount_le ql f

theorem faqScore_of_no_tokens (ql : String) (f : FAQ) (h : sigTokens ql = []) :
    faqScore ql f = 0 := by
  unfold faqScore matchCount
  rw [h]
  simp

theorem faqScore_eq_spec_formula (ql : String) (f : FAQ) :
    faqScore ql f = (matchCount ql f : ℚ) / ((max 1 (sigTokens ql).length : ℕ) : ℚ) := by
  rcases Nat.eq_zero_or_pos (sigTokens ql).length with h | h
  · have hm : matchCount ql f = 0 := by
      have := matchCount_le ql f
      omega
    unfold faqScore
    rw [hm, h]
    norm_num
  · unfold faqScore
    rw [Nat.max_eq_right h]

theorem bestFaqAux_score_bounds (ql : String) (l : List FAQ) :
    ∀ acc : Option FAQ × ℚ, 0 ≤ acc.2 → acc.2 ≤ 1 →
      0 ≤ (bestFaqAux ql l acc).2 ∧ (bestFaqAux ql l acc).2 ≤ 1 := by
  induction l with
  | nil => exact fun acc h0 h1 => ⟨h0, h1⟩
  | cons f rest ih =>
    intro acc h0 h1
    obtain ⟨bf, bs⟩ := acc
    simp only [bestFaqAux]
    split
    · exact ih _ (faqScore_nonneg ql f) (faqScore_le_one ql f)
    · exact ih _ h0 h1

theorem bestFaqAux_no_tokens (ql : String) (h : sigTokens ql = []) (l : List FAQ) :
    ∀ acc : Option FAQ × ℚ, bestFaqAux ql l acc = acc := by
  induction l with
  | nil => exact fun acc => rfl
  | cons f rest ih =>
    intro acc
    obtain ⟨bf, bs⟩ := acc
    simp only [bestFaqAux]
    have hc : ¬(faqScore ql f > bs ∧ faqScore ql f > (3 : ℚ)/10) := by
      rw [faqScore_of_no_tokens ql f h]
      rintro ⟨-, h2⟩
      exact absurd h2 (by norm_num)
    rw [if_neg hc]
    exact ih _

/-- C1: the FAQ matcher tokenizes the lowercased question on whitespace
and keeps tokens of length above three (`sigTokens`); each FAQ's score
equals the number of significant tokens occurring in the FAQ's lowercased
question divided by `max 1` of the significant-token count; the best
score returned by the loop always lies in `[0, 1]` and is `0` when the
question has no significant tokens. -/
theorem C1_score_invariant (question : String) (faqs : List FAQ) :
    (0 ≤ (findBestFaq (jsLower question) faqs).2 ∧ (findBestFaq (jsLower question) faqs).2 ≤ 1) ∧
    (sigTokens (jsLower question) = [] → (findBestFaq (jsLower question) faqs).2 = 0) ∧
    (∀ f : FAQ, faqScore (jsLower question) f =
      (matchCount (jsLower question) f : ℚ) / ((max 1 (sigTokens (jsLower question)).length : ℕ) : ℚ)) := by
  refine ⟨bestFaqAux_score_bounds (jsLower question) faqs (none, 0) (by norm_num) (by norm_num),
    ?_, fun f => faqScore_eq_spec_formula (jsLower question) f⟩
  intro h
  unfold findBestFaq
  rw [bestFaqAux_no_tokens (jsLower question) h faqs (none, 0)]

theorem C1_score_invariant_witness :
    sigTokens (jsLower "Hi a") = [] ∧
      (findBestFaq (jsLower "Hi a") [⟨"Braze question", "answer"⟩]).2 = 0 :=
  ⟨by decide, (C1_score_invariant "Hi a" [⟨"Braze question", "answer"⟩]).2.1 (by decide)⟩

theorem bestFaqAux_append (ql : String) (a b : List FAQ) :
    ∀ acc : Option FAQ × ℚ, bestFaqAux ql (a ++ b) acc = bestFaqAux ql b (bestFaqAux ql a acc) := by
  induction a with
  | nil => exact fun acc => rfl
  | cons f rest ih =>
    intro acc
    obtain ⟨bf, bs⟩ := acc
    simp only [List.cons_append, bestFaqAux]
    split
    · exact ih _
    · exact ih _

theorem bestFaqAux_lt (ql : String) (S : ℚ) :
    ∀ l : List FAQ, (∀ g ∈ l, faqScore ql g < S) →
      ∀ acc : Option FAQ × ℚ, acc.2 < S → (bestFaqAux ql l acc).2 < S := by
  intro l
  induction l with
  | nil => exact fun _ acc h => h
  | cons f rest ih =>
    intro hl acc h
    obtain ⟨bf, bs⟩ := acc
    simp only [bestFaqAux]
    split
    · exact ih (fun g hg => hl g (List.mem_cons_of_mem f hg)) _ (hl f (List.mem_cons_self f rest))
    · exact ih (fun g hg => hl g (List.mem_cons_of_mem f hg)) _ h

theorem bestFaqAux_no_update (ql : String) (S : ℚ) :
    ∀ l : List FAQ, (∀ g ∈ l, faqScore ql g ≤ S) →
      ∀ bf : Option FAQ, bestFaqAux ql l (bf, S) = (bf, S) := by
  intro l
  induction l with
  | nil => exact fun _ bf => rfl
  | cons f rest ih =>
    intro hl bf
    simp only [bestFaqAux]
    have hc : ¬(faqScore ql f > S ∧ faqScore ql f > (3 : ℚ)/10) := by
      rintro ⟨h1, -⟩
      exact absurd h1 (not_lt.mpr (hl f (List.mem_cons_self f rest)))
    rw [if_neg hc]
    exact ih (fun g hg => hl g (List.mem_cons_of_mem f hg)) bf

/-- C6 (amended): when the maximal FAQ score exceeds the tracking
threshold `0.3`, the loop returns the earliest FAQ attaining the maximum
(`f` here: everything before it scores strictly lower, everything after
it scores no higher), so equal maximal scores are resolved in favour of
document order; when the maximal score is at most `0.3`, no FAQ is
returned at all (see the counterexample). -/
theorem C6_first_max_wins (ql : String) (l₁ l₂ : List FAQ) (f : FAQ)
    (h₁ : ∀ g ∈ l₁, faqScore ql g < faqScore ql f)
    (h₂ : ∀ g ∈ l₂, faqScore ql g ≤ faqScore ql f)
    (h₃ : (3 : ℚ)/10 < faqScore ql f) :
    (findBestFaq ql (l₁ ++ f :: l₂)).1 = some f := by
  unfold findBestFaq
  rw [bestFaqAux_append]
  rcases hacc : bestFaqAux ql l₁ (none, 0) with ⟨bf, bs⟩
  have hbs : bs < faqScore ql f := by
    have h0 : ((none : Option FAQ), (0 : ℚ)).2 < faqScore ql f := lt_trans (by norm_num) h₃
    have hres := bestFaqAux_lt ql (faqScore ql f) l₁ h₁ (none, 0) h0
    rw [hacc] at hres
    exact hres
  simp only [bestFaqAux]
  rw [if_pos ⟨hbs, h₃⟩, bestFaqAux_no_update ql (faqScore ql f) l₂ h₂]

def c6f0 : FAQ := ⟨"zzzz", "z"⟩

def c6f1 : FAQ := ⟨"alpha beta x", "w1"⟩

def c6f2 : FAQ := ⟨"alpha beta y", "w2"⟩

theorem C6_first_max_wins_witness :
    (findBestFaq "alpha beta" ([c6f0] ++ c6f1 :: [c6f2])).1 = some c6f1 := by
  have ht : sigTokens "alpha beta" = ["alpha", "beta"] := by decide
  have hm0 : matchCount "alpha beta" c6f0 = 0 := by decide
  have hm1 : matchCount "alpha beta" c6f1 = 2 := by decide
  have hm2 : matchCount "alpha beta" c6f2 = 2 := by decide
  have hs0 : faqScore "alpha beta" c6f0 = 0 := by
    unfold faqScore
    rw [hm0, ht]
    norm_num
  have hs1 : faqScore "alpha beta" c6f1 = 1 := by
    unfold faqScore
    rw [hm1, ht]
    norm_num
  have hs2 : faqScore "alpha beta" c6f2 = 1 := by
    unfold faqScore
    rw [hm2, ht]
    norm_num
  refine C6_first_max_wins "alpha beta" [c6f0] [c6f2] c6f1 ?_ ?_ ?_
  · intro g hg
    rw [List.mem_singleton] at hg
    subst hg
    rw [hs0, hs1]
    norm_num
  · intro g hg
    rw [List.mem_singleton] at hg
    subst hg
    rw [hs2, hs1]
  · rw [hs1]
    norm_num

def c6cxA : FAQ := ⟨"alpha only", "a1"⟩

def c6cxB : FAQ := ⟨"beta only", "a2"⟩

theorem C6_tie_counterexample :
    faqScore "alpha beta gamma delta" c6cxA = 1/4 ∧
    faqScore "alpha beta gamma delta" c6cxB = 1/4 ∧
    (findBestFaq "alpha beta gamma delta" [c6cxA, c6cxB]).1 = none := by
  have ht : sigTokens "alpha beta gamma delta" = ["alpha", "beta", "gamma", "delta"] := by decide
  have hmA : matchCount "alpha beta gamma delta" c6cxA = 1 := by decide
  have hmB : matchCount "alpha beta gamma delta" c6cxB = 1 := by decide
  have hsA : faqScore "alpha beta gamma delta" c6cxA = 1/4 := by
    unfold faqScore
    rw [hmA, ht]
    norm_num
  have hsB : faqScore "alpha beta gamma delta" c6cxB = 1/4 := by
    unfold faqScore
    rw [hmB, ht]
    norm_num
  refine ⟨hsA, hsB, ?_⟩
  unfold findBestFaq
  simp only [bestFaqAux, hsA, hsB]
  norm_num

set_option maxRecDepth 100000

def kbEmpty : KB :=
  ⟨"C", "L", none, none, [], ⟨[]⟩, [], ⟨"", []⟩, ⟨[], "", []⟩, []⟩

/-- C2 (amended): a thrown service error and a non-success HTTP response
both make the handler answer with the deterministic fallback (model tag
`fallback`); a successful response whose content is absent or empty
instead yields the fixed placeholder text with model tag `gpt-4o-mini`,
not the fallback. -/
theorem C2_failure_fallback (question : String) (kb : KB) :
    handleCompletionOutcome question kb ServiceOutcome.threw = fallbackResponse question kb ∧
    handleCompletionOutcome question kb ServiceOutcome.notOk = fallbackResponse question kb ∧
    handleCompletionOutcome question kb (ServiceOutcome.okContent none) =
      JsResult.ok (placeholderText, "gpt-4o-mini") ∧
    handleCompletionOutcome question kb (ServiceOutcome.okContent (some "")) =
      JsResult.ok (placeholderText, "gpt-4o-mini") :=
  ⟨rfl, rfl, rfl, by simp [handleCompletionOutcome]⟩

theorem C2_empty_content_counterexample :
    handleCompletionOutcome "hello" kbEmpty (ServiceOutcome.okContent (some "")) =
      JsResult.ok (placeholderText, "gpt-4o-mini") ∧
    generateSmartAnswer "hello" kbEmpty = JsResult.ok defaultMenu ∧
    handleCompletionOutcome "hello" kbEmpty (ServiceOutcome.okContent (some "")) ≠
      JsResult.ok (defaultMenu, "fallback") := by
  refine ⟨by simp [handleCompletionOutcome], by decide, ?_⟩
  simp [handleCompletionOutcome]

/-- C3 (amended): the best-effort FAQ rendering fires only for a best
score strictly above the tracking threshold `0.3` (that is exactly when
the loop records a best FAQ at all) and at most `0.5`; with no
topic-specific template triggered, `generateSmartAnswer` then renders
that FAQ.  For a positive best score at or below `0.3` the loop records
nothing and the generic menu is returned instead (see the
counterexample). -/
theorem C3_low_score_faq_rendered (question : String) (kb : KB) (f : FAQ) (s : ℚ)
    (hfind : findBestFaq (jsLower question) kb.faqs = (some f, s))
    (hs : s ≤ 1/2)
    (h1 : containsSubstr (jsLower question) "lead scor" = false)
    (h2 : containsSubstr (jsLower question) "churn" = false)
    (h2b : containsSubstr (jsLower question) "predictive churn" = false)
    (h3 : (containsSubstr (jsLower question) "braze" &&
      containsSubstr (jsLower question) "channel") = false)
    (h4 : containsSubstr (jsLower question) "mta" = false)
    (h5 : containsSubstr (jsLower question) "mmm" = false)
    (h6 : containsSubstr (jsLower question) "attribution" = false)
    (h7 : containsSubstr (jsLower question) "gdpr" = false)
    (h8 : containsSubstr (jsLower question) "compliance" = false)
    (h9 : containsSubstr (jsLower question) "privacy" = false)
    (h10 : (containsSubstr (jsLower question) "data" &&
      (containsSubstr (jsLower question) "collect" || containsSubstr (jsLower question) "flow")) = false) :
    generateSmartAnswer question kb = JsResult.ok (renderFaq f) := by
  have hcore : smartAnswerCore (jsLower question) kb (some f) = JsResult.ok (renderFaq f) := by
    simp only [smartAnswerCore, leadScoreBranch, churnBranch, channelsBranch, attributionBranch,
      complianceBranch, dataFlowBranch, h1, h2, h2b, h3, h4, h5, h6, h7, h8, h9, h10]
    simp
  simp only [generateSmartAnswer]
  rw [hfind]
  simp only [not_lt.mpr hs, if_neg (not_lt.mpr hs)]
  exact hcore

def c3kb : KB :=
  { kbEmpty with faqs := [⟨"alpha things", "AW"⟩] }

theorem C3_low_score_faq_rendered_witness :
    generateSmartAnswer "alpha beta gamma" c3kb = JsResult.ok (renderFaq ⟨"alpha things", "AW"⟩) := by
  have ht : sigTokens (jsLower "alpha beta gamma") = ["alpha", "beta", "gamma"] := by decide
  have hm : matchCount (jsLower "alpha beta gamma") ⟨"alpha things", "AW"⟩ = 1 := by decide
  have hsc : faqScore (jsLower "alpha beta gamma") ⟨"alpha things", "AW"⟩ = 1/3 := by
    unfold faqScore
    rw [hm, ht]
    norm_num
  have hfind : findBestFaq (jsLower "alpha beta gamma") c3kb.faqs =
      (some ⟨"alpha things", "AW"⟩, 1/3) := by
    show findBestFaq (jsLower "alpha beta gamma") [⟨"alpha things", "AW"⟩] = _
    unfold findBestFaq
    simp only [bestFaqAux, hsc]
    norm_num
  exact C3_low_score_faq_rendered "alpha beta gamma" c3kb ⟨"alpha things", "AW"⟩ (1/3) hfind
    (by norm_num) (by decide) (by decide) (by decide) (by decide) (by decide) (by decide)
    (by decide) (by decide) (by decide) (by decide) (by decide)

def c3cxKb : KB :=
  { kbEmpty with faqs := [⟨"alpha question", "A3"⟩] }

theorem C3_low_score_counterexample :
    faqScore (jsLower "alpha beta gamma delta") ⟨"alpha question", "A3"⟩ = 1/4 ∧
    generateSmartAnswer "alpha beta gamma delta" c3cxKb = JsResult.ok defaultMenu ∧
    defaultMenu ≠ renderFaq ⟨"alpha question", "A3"⟩ := by
  have ht : sigTokens (jsLower "alpha beta gamma delta") =
      ["alpha", "beta", "gamma", "delta"] := by decide
  have hm : matchCount (jsLower "alpha beta gamma delta") ⟨"alpha question", "A3"⟩ = 1 := by decide
  have hsc : faqScore (jsLower "alpha beta gamma delta") ⟨"alpha question", "A3"⟩ = 1/4 := by
    unfold faqScore
    rw [hm, ht]
    norm_num
  have hfind : findBestFaq (jsLower "alpha beta gamma delta") c3cxKb.faqs =
      ((none : Option FAQ), (0 : ℚ)) := by
    show findBestFaq (jsLower "alpha beta gamma delta") [⟨"alpha question", "A3"⟩] = _
    unfold findBestFaq
    simp only [bestFaqAux, hsc]
    norm_num
  refine ⟨hsc, ?_, by decide⟩
  simp only [generateSmartAnswer]
  rw [hfind]
  decide

/-- C4 (amended): the deterministic fallback renders the Braze channels
section only when the lowercased question contains both `braze` and
`channel` (and the document actually lists the Braze tool with channels
and capabilities); with `channel` alone the channels template never
fires, even though `buildFocusedContext` does add the tools section for
`channel` alone (see the counterexample). -/
theorem C4_braze_and_channel (question : String) (kb : KB) (braze : Tool)
    (chs caps : List String)
    (hs : (findBestFaq (jsLower question) kb.faqs).2 ≤ 1/2)
    (hbr : containsSubstr (jsLower question) "braze" = true)
    (hch : containsSubstr (jsLower question) "channel" = true)
    (h1 : containsSubstr (jsLower question) "lead scor" = false)
    (h2 : containsSubstr (jsLower question) "churn" = false)
    (h2b : containsSubstr (jsLower question) "predictive churn" = false)
    (hfind : (kb.categories.find? (fun c => c.name = "Customer Engagement")).bind
      (fun c => c.tools.find? (fun t => t.name = "Braze")) = some braze)
    (hchs : braze.channels = some chs)
    (hcaps : braze.capabilities = some caps) :
    generateSmartAnswer question kb = JsResult.ok (renderChannels chs caps) := by
  have hcore : ∀ bf : Option FAQ, smartAnswerCore (jsLower question) kb bf =
      JsResult.ok (renderChannels chs caps) := by
    intro bf
    simp only [smartAnswerCore, leadScoreBranch, churnBranch, channelsBranch,
      h1, h2, h2b, hbr, hch, hfind, hchs, hcaps]
    simp
  rcases hbf : findBestFaq (jsLower question) kb.faqs with ⟨bf, s⟩
  rw [hbf] at hs
  simp only at hs
  simp only [generateSmartAnswer]
  rw [hbf]
  cases bf with
  | none => exact hcore none
  | some f =>
    simp only [if_neg (not_lt.mpr hs)]
    exact hcore (some f)

def c4kbGood : KB :=
  { kbEmpty with categories :=
      [⟨"Customer Engagement", "engagement tools",
        [⟨"Braze", "engagement platform", some ["C1", "C2"], some ["Email", "Push"], none⟩]⟩] }

theorem C4_braze_and_channel_witness :
    generateSmartAnswer "braze channel" c4kbGood =
      JsResult.ok (renderChannels ["Email", "Push"] ["C1", "C2"]) :=
  C4_braze_and_channel "braze channel" c4kbGood
    ⟨"Braze", "engagement platform", some ["C1", "C2"], some ["Email", "Push"], none⟩
    ["Email", "Push"] ["C1", "C2"]
    (by norm_num [c4kbGood, kbEmpty, findBestFaq, bestFaqAux])
    (by decide) (by decide) (by decide) (by decide) (by decide)
    (by decide) rfl rfl

def c4kbCx : KB :=
  { kbEmpty with categories :=
      [⟨"Customer Engagement", "engagement tools",
        [⟨"Braze", "engagement platform", some ["C1", "C2"], some ["Email", "Push"], none⟩]⟩] }

theorem C4_channel_alone_counterexample :
    containsSubstr (jsLower "channel") "channel" = true ∧
    generateSmartAnswer "channel" c4kbCx = JsResult.ok defaultMenu ∧
    containsSubstr defaultMenu "Braze Supported Channels" = false := by
  refine ⟨by decide, by decide, by decide⟩

/-- C5 (amended): a question containing `consent` always makes the
assembled completion-service context include the compliance section
(regulations, principle, high-risk areas); the deterministic fallback,
whose compliance triggers are only `gdpr`, `compliance` and `privacy`,
does not react to `consent` (see the counterexample). -/
theorem C5_consent_in_context (question : String) (kb : KB)
    (h : containsSubstr (jsLower question) "consent" = true) :
    ∃ a b : String, buildFocusedContext question kb = a ++ complianceText kb ++ b := by
  have hcomp : complianceSection (jsLower question) kb = complianceText kb := by
    unfold complianceSection
    rw [h]
    simp
  have hct : 0 < (complianceText kb).length := by
    unfold complianceText
    simp only [String.length_append]
    have h25 : ("Compliance: Regulations: " : String).length = 25 := rfl
    omega
  have hbody : 0 < (focusedBody (jsLower question) kb).length := by
    unfold focusedBody
    rw [hcomp]
    simp only [String.length_append]
    omega
  have hne : focusedBody (jsLower question) kb ≠ "" := strNeEmptyOfPos _ hbody
  refine ⟨faqSection (jsLower question) kb ++ predictiveSection (jsLower question) kb ++
    toolsSection (jsLower question) kb ++ measurementSection (jsLower question) kb,
    dataFlowsSection (jsLower question) kb, ?_⟩
  simp only [buildFocusedContext]
  rw [if_neg hne]
  unfold focusedBody
  rw [hcomp]

def c5kb : KB :=
  { kbEmpty with compliance := ⟨["GDPR-X"], "P-unique", []⟩ }

theorem C5_consent_in_context_witness :
    ∃ a b : String, buildFocusedContext "consent" c5kb = a ++ complianceText c5kb ++ b :=
  C5_consent_in_context "consent" c5kb (by decide)

theorem C5_consent_fallback_counterexample :
    containsSubstr (jsLower "consent") "consent" = true ∧
    generateSmartAnswer "consent" c5kb = JsResult.ok defaultMenu ∧
    containsSubstr defaultMenu "P-unique" = false := by
  refine ⟨by decide, by decide, by decide⟩

/-- C7: the context-assembly operation never returns an empty string:
when no topical section contributed to the focused context it returns
the full-document rendering `buildContext` (which always starts with the
company header), and otherwise the non-empty focused context itself. -/
theorem C7_context_nonempty (question : String) (kb : KB) :
    buildFocusedContext question kb ≠ "" ∧
    (focusedBody (jsLower question) kb = "" →
      buildFocusedContext question kb = buildContext kb) := by
  have hbc : buildContext kb ≠ "" := by
    apply strNeEmptyOfPos
    unfold buildContext fullHeader
    simp only [String.length_append]
    have h9 : ("Company: " : String).length = 9 := rfl
    omega
  constructor
  · by_cases h : focusedBody (jsLower question) kb = ""
    · simp only [buildFocusedContext]
      rw [if_pos h]
      exact hbc
    · simp only [buildFocusedContext]
      rw [if_neg h]
      exact h
  · intro h
    simp only [buildFocusedContext]
    rw [if_pos h]

theorem C7_context_nonempty_witness :
    focusedBody (jsLower "zzzz") kbEmpty = "" ∧
    buildFocusedContext "zzzz" kbEmpty = buildContext kbEmpty ∧
    buildFocusedContext "zzzz" kbEmpty ≠ "" :=
  ⟨by decide, (C7_context_nonempty "zzzz" kbEmpty).2 (by decide),
    (C7_context_nonempty "zzzz" kbEmpty).1⟩

theorem renderFaq_ne (f : FAQ) : renderFaq f ≠ "" := by
  apply strNeEmptyOfPos
  unfold renderFaq
  simp only [String.length_append]
  have h2 : ("**" : String).length = 2 := rfl
  omega

theorem renderLeadScore_ne (m : PredictiveModel) : renderLeadScore m ≠ "" := by
  apply strNeEmptyOfPos
  unfold renderLeadScore
  simp only [String.length_append]
  have h2 : ("**" : String).length = 2 := rfl
  omega

theorem renderChurn_ne (m : PredictiveModel) : renderChurn m ≠ "" := by
  apply strNeEmptyOfPos
  unfold renderChurn
  simp only [String.length_append]
  have h2 : ("**" : String).length = 2 := rfl
  omega

theorem renderChannels_ne (chs caps : List String) : renderChannels chs caps ≠ "" := by
  apply strNeEmptyOfPos
  unfold renderChannels
  simp only [String.length_append]
  have h2 : ("**Braze Supported Channels:**\n\n" : String).length = 31 := rfl
  omega

theorem renderAttribution_ne (mf : MeasurementFramework) : renderAttribution mf ≠ "" := by
  apply strNeEmptyOfPos
  unfold renderAttribution
  simp only [String.length_append]
  have h2 : ("**" : String).length = 2 := rfl
  omega

theorem renderCompliance_ne (c : ComplianceInfo) : renderCompliance c ≠ "" := by
  apply strNeEmptyOfPos
  unfold renderCompliance
  simp only [String.length_append]
  have h2 : ("**Compliance & Privacy**\n\nRegulations: " : String).length = 39 := rfl
  omega

theorem renderDataFlows_ne (kb : KB) : renderDataFlows kb ≠ "" := by
  apply strNeEmptyOfPos
  unfold renderDataFlows
  simp only [String.length_append]
  have h2 :
    0 < ("**Data Collection & Flows**\n\nUser data is collected via Segment SDK in the web/app.\n\n**Key Data Flows:**\n" : String).length := by decide
  omega

theorem leadScoreBranch_ne (q : String) (kb : KB) (a : String)
    (h : leadScoreBranch q kb = some a) : a ≠ "" := by
  unfold leadScoreBranch at h
  split at h
  · cases hf : kb.dataStrategy.predictiveModels.find?
        (fun m => containsSubstr m.name "Lead Score") with
    | none => rw [hf] at h; exact absurd h (by simp)
    | some m =>
      rw [hf] at h
      simp only [Option.map_some'] at h
      injection h with h'
      subst h'
      exact renderLeadScore_ne m
  · exact absurd h (by simp)

theorem churnBranch_ne (q : String) (kb : KB) (a : String)
    (h : churnBranch q kb = some a) : a ≠ "" := by
  unfold churnBranch at h
  split at h
  · cases hf : kb.dataStrategy.predictiveModels.find?
        (fun m => containsSubstr m.name "Churn") with
    | none => rw [hf] at h; exact absurd h (by simp)
    | some m =>
      rw [hf] at h
      simp only [Option.map_some'] at h
      injection h with h'
      subst h'
      exact renderChurn_ne m
  · exact absurd h (by simp)

theorem attributionBranch_ne (q : String) (kb : KB) (a : String)
    (h : attributionBranch q kb = some a) : a ≠ "" := by
  unfold attributionBranch at h
  split at h
  · injection h with h'
    subst h'
    exact renderAttribution_ne _
  · exact absurd h (by simp)

theorem complianceBranch_ne (q : String) (kb : KB) (a : String)
    (h : complianceBranch q kb = some a) : a ≠ "" := by
  unfold complianceBranch at h
  split at h
  · injection h with h'
    subst h'
    exact renderCompliance_ne _
  · exact absurd h (by simp)

theorem dataFlowBranch_ne (q : String) (kb : KB) (a : String)
    (h : dataFlowBranch q kb = some a) : a ≠ "" := by
  unfold dataFlowBranch at h
  split at h
  · injection h with h'
    subst h'
    exact renderDataFlows_ne _
  · exact absurd h (by simp)

theorem channelsBranch_ok (q : String) (kb : KB) (r : JsResult String)
    (hcap : ∀ c ∈ kb.categories, ∀ t ∈ c.tools,
      t.channels.isSome = true → t.capabilities.isSome = true)
    (h : channelsBranch q kb = some r) :
    ∃ s : String, r = JsResult.ok s ∧ s ≠ "" := by
  unfold channelsBranch at h
  split at h
  · split at h
    next braze hb =>
      split at h
      next chs hch =>
        split at h
        next caps hcp =>
          injection h with h'
          exact ⟨renderChannels chs caps, h'.symm, renderChannels_ne chs caps⟩
        next hcp =>
          obtain ⟨c, hc, ht⟩ := Option.bind_eq_some.mp hb
          have hso := hcap c (List.mem_of_find?_eq_some hc) braze
            (List.mem_of_find?_eq_some ht) (by rw [hch]; rfl)
          rw [hcp] at hso
          exact absurd hso (by simp)
      next hch => exact absurd h (by simp)
    next hb => exact absurd h (by simp)
  · exact absurd h (by simp)

theorem smartAnswerCore_total (q : String) (kb : KB)
    (hcap : ∀ c ∈ kb.categories, ∀ t ∈ c.tools,
      t.channels.isSome = true → t.capabilities.isSome = true)
    (bf : Option FAQ) :
    ∃ s : String, smartAnswerCore q kb bf = JsResult.ok s ∧ s ≠ "" := by
  unfold smartAnswerCore
  cases hl : leadScoreBranch q kb with
  | some a => exact ⟨a, rfl, leadScoreBranch_ne q kb a hl⟩
  | none =>
  cases hc : churnBranch q kb with
  | some a => exact ⟨a, rfl, churnBranch_ne q kb a hc⟩
  | none =>
  cases hch : channelsBranch q kb with
  | some r =>
    obtain ⟨s, rfl, hs⟩ := channelsBranch_ok q kb r hcap hch
    exact ⟨s, rfl, hs⟩
  | none =>
  cases ha : attributionBranch q kb with
  | some a => exact ⟨a, rfl, attributionBranch_ne q kb a ha⟩
  | none =>
  cases hcm : complianceBranch q kb with
  | some a => exact ⟨a, rfl, complianceBranch_ne q kb a hcm⟩
  | none =>
  cases hd : dataFlowBranch q kb with
  | some a => exact ⟨a, rfl, dataFlowBranch_ne q kb a hd⟩
  | none =>
  cases bf with
  | some f => exact ⟨renderFaq f, rfl, renderFaq_ne f⟩
  | none =>
    by_cases hb : (containsSubstr q "braze" || containsSubstr q "campaign" ||
        containsSubstr q "canvas") = true
    · refine ⟨brazeMenu, ?_, by decide⟩
      rw [if_pos hb]
    · refine ⟨defaultMenu, ?_, by decide⟩
      rw [if_neg hb]

/-- C9 (amended): provided every tool that lists channels also lists
capabilities (the source reads `braze.capabilities.slice(0, 6)` without
a guard inside the channels branch), the deterministic fallback
terminates without throwing on every question and document and returns
a non-empty answer string; without that proviso the branch can throw
(see the counterexample). -/
theorem C9_fallback_total (question : String) (kb : KB)
    (hcap : ∀ c ∈ kb.categories, ∀ t ∈ c.tools,
      t.channels.isSome = true → t.capabilities.isSome = true) :
    ∃ s : String, generateSmartAnswer question kb = JsResult.ok s ∧ s ≠ "" := by
  simp only [generateSmartAnswer]
  rcases hbf : findBestFaq (jsLower question) kb.faqs with ⟨bf, s⟩
  cases bf with
  | none => exact smartAnswerCore_total (jsLower question) kb hcap none
  | some f =>
    by_cases hs : s > (1 : ℚ)/2
    · exact ⟨renderFaq f, by simp only [if_pos hs], renderFaq_ne f⟩
    · obtain ⟨a, ha, hane⟩ := smartAnswerCore_total (jsLower question) kb hcap (some f)
      exact ⟨a, by simp only [if_neg hs]; exact ha, hane⟩

def c9kbBad : KB :=
  { kbEmpty with categories :=
      [⟨"Customer Engagement", "engagement tools",
        [⟨"Braze", "engagement platform", none, some ["Email", "Push"], none⟩]⟩] }

theorem C9_throw_counterexample :
    generateSmartAnswer "braze channel" c9kbBad = JsResult.thrown := by decide

def c9kbGood : KB :=
  { kbEmpty with categories :=
      [⟨"Customer Engagement", "engagement tools",
        [⟨"Braze", "engagement platform", some ["CapA"], some ["Email", "Push"], none⟩]⟩] }

theorem C9_fallback_total_witness :
    ∃ s : String, generateSmartAnswer "braze channel" c9kbGood = JsResult.ok s ∧ s ≠ "" :=
  C9_fallback_total "braze channel" c9kbGood (by decide)

theorem insertDesc_perm (r : LiveRecord) (l : List LiveRecord) :
    List.Perm (insertDesc r l) (r :: l) := by
  induction l with
  | nil => exact List.Perm.refl _
  | cons x xs ih =>
    unfold insertDesc
    split
    · exact List.Perm.refl _
    · exact (ih.cons x).trans (List.Perm.swap r x xs)

theorem sortByRecency_perm (l : List LiveRecord) : List.Perm (sortByRecency l) l := by
  induction l with
  | nil => exact List.Perm.refl _
  | cons r rs ih => exact (insertDesc_perm r (sortByRecency rs)).trans (ih.cons r)

theorem insertDesc_sorted (r : LiveRecord) (l : List LiveRecord)
    (h : List.Pairwise (fun a b => recencyKey b ≤ recencyKey a) l) :
    List.Pairwise (fun a b => recencyKey b ≤ recencyKey a) (insertDesc r l) := by
  induction l with
  | nil => simp [insertDesc]
  | cons x xs ih =>
    rw [List.pairwise_cons] at h
    obtain ⟨hx, hxs⟩ := h
    unfold insertDesc
    split
    next hle =>
      refine List.Pairwise.cons ?_ (List.Pairwise.cons hx hxs)
      intro b hb
      rcases List.mem_cons.mp hb with rfl | hb'
      · exact hle
      · exact le_trans (hx b hb') hle
    next hle =>
      refine List.Pairwise.cons ?_ (ih hxs)
      intro b hb
      have hmem : b ∈ r :: xs := (insertDesc_perm r xs).subset hb
      rcases List.mem_cons.mp hmem with rfl | hb'
      · exact le_of_not_le hle
      · exact hx b hb'

theorem sortByRecency_sorted (l : List LiveRecord) :
    List.Pairwise (fun a b => recencyKey b ≤ recencyKey a) (sortByRecency l) := by
  induction l with
  | nil => simp [sortByRecency]
  | cons r rs ih => exact insertDesc_sorted r (sortByRecency rs) ih

/-- C8: on a non-empty snapshot, a question with the recency sub-intent
(and no earlier count or list sub-intent) makes the synthesizer answer
with exactly the first five records of the descending recency order
under the "most recent" heading: the rendered list has length
`min 5 n`, is sorted descending by `lastEdited ?? createdAt`, and when
five or fewer records exist it is the whole (sorted) snapshot. -/
theorem C8_recency_top5 (q : String) (rs : List LiveRecord)
    (hne : rs ≠ [])
    (hcount : countIntent q = false)
    (hlist : listIntent q = false)
    (hrec : recencyIntent q = true) :
    synthesize q rs = some (recentHeading ++ renderRecords ((sortByRecency rs).take 5)) ∧
    ((sortByRecency rs).take 5).length = min 5 rs.length ∧
    List.Pairwise (fun a b => recencyKey b ≤ recencyKey a) ((sortByRecency rs).take 5) ∧
    (rs.length ≤ 5 → List.Perm ((sortByRecency rs).take 5) rs) := by
  have hperm := sortByRecency_perm rs
  have hlen : (sortByRecency rs).length = rs.length := hperm.length_eq
  have hemp : rs.isEmpty = false := by
    cases rs with
    | nil => exact absurd rfl hne
    | cons a as => rfl
  refine ⟨?_, ?_, ?_, ?_⟩
  · simp only [synthesize, hemp, hcount, hlist, hrec]
    simp
  · rw [List.length_take, hlen]
  · exact List.Pairwise.sublist (List.take_sublist 5 _) (sortByRecency_sorted rs)
  · intro h5
    rw [List.take_of_length_le (by rw [hlen]; exact h5)]
    exact hperm

def c8recs : List LiveRecord :=
  [⟨"A", 1, none, false⟩, ⟨"B", 2, some 5, true⟩]

theorem C8_recency_top5_witness :
    synthesize "recent campaigns" c8recs =
      some (recentHeading ++ renderRecords ((sortByRecency c8recs).take 5)) ∧
    ((sortByRecency c8recs).take 5).length = min 5 c8recs.length ∧
    List.Pairwise (fun a b => recencyKey b ≤ recencyKey a) ((sortByRecency c8recs).take 5) ∧
    (c8recs.length ≤ 5 → List.Perm ((sortByRecency c8recs).take 5) c8recs) :=
  C8_recency_top5 "recent campaigns" c8recs (by decide) (by decide) (by decide) (by decide)

theorem fuzzyScanAux_exact (ns : String) :
    ∀ (pre : List String) (t : String) (post : List String) (acc : Option String × ℚ),
      normalizeTableName t = ns →
      (∀ p ∈ pre, normalizeTableName p ≠ ns) →
      (fuzzyScanAux ns (pre ++ t :: post) acc).1 = some t ∧
      fuzzyScanAux ns (pre ++ t :: post) acc = fuzzyScanAux ns (pre ++ [t]) acc := by
  intro pre
  induction pre with
  | nil =>
    intro t post acc ht _
    obtain ⟨bm, bs⟩ := acc
    constructor
    · simp only [List.nil_append, fuzzyScanAux]
      rw [if_pos ht]
    · simp only [List.nil_append, fuzzyScanAux]
      rw [if_pos ht, if_pos ht]
  | cons p pre' ih =>
    intro t post acc ht hpre
    obtain ⟨bm, bs⟩ := acc
    have hp : normalizeTableName p ≠ ns := hpre p (List.mem_cons_self p pre')
    have hrest : ∀ x ∈ pre', normalizeTableName x ≠ ns :=
      fun x hx => hpre x (List.mem_cons_of_mem p hx)
    constructor
    · simp only [List.cons_append, fuzzyScanAux]
      rw [if_neg hp]
      exact (ih t post _ ht hrest).1
    · simp only [List.cons_append, fuzzyScanAux]
      rw [if_neg hp, if_neg hp]
      exact (ih t post _ ht hrest).2

/-- C10: if `t` is the first table in the scan whose normalized name
equals the normalized requested name (nothing before it normalizes
equally, whatever containment or word-overlap scores those earlier
tables accumulated), then the fuzzy resolution selects `t` and stops
there: the result ignores everything after `t`. -/
theorem C10_exact_match_selected (tableName : String) (pre : List String) (t : String)
    (post : List String)
    (ht : normalizeTableName t = normalizeTableName tableName)
    (hpre : ∀ p ∈ pre, normalizeTableName p ≠ normalizeTableName tableName) :
    (findFuzzyMatch tableName (pre ++ t :: post)).1 = some t ∧
    findFuzzyMatch tableName (pre ++ t :: post) = findFuzzyMatch tableName (pre ++ [t]) := by
  unfold findFuzzyMatch
  exact fuzzyScanAux_exact (normalizeTableName tableName) pre t post (none, 0) ht hpre

theorem C10_exact_match_selected_witness :
    (findFuzzyMatch "Campaigns 2024"
      (["2024 Campaigns"] ++ "📊 Campaigns 2024" :: ["Other 2024 Campaigns"])).1 =
      some "📊 Campaigns 2024" :=
  (C10_exact_match_selected "Campaigns 2024" ["2024 Campaigns"] "📊 Campaigns 2024"
    ["Other 2024 Campaigns"] (by decide) (by decide)).1
